import Mathlib

/-!
Verification development for the RwaDealTracker aggregation / caching /
financial-analysis core.

Shallow embedding conventions:
* Python float arithmetic is modelled over `ℚ` (exact real-number semantics of
  the arithmetic the code performs); `float('inf')` results are modelled as
  `none` of an `Option ℚ` field.
* A Python value that may be `None` is an `Option`; Python truthiness of a
  number (`None` and `0` are falsy) is the `truthyQ` test below.
* A Python function that can raise an exception for some inputs returns
  `Option _`; `none` models the raised exception.
* Dictionaries of fixed shape (the metrics payloads) are modelled as an
  inductive whose constructors are the exact key-sets the code can produce.
* Display-only f-strings (the `scenario` labels of the stress test), whose
  exact text depends on the binary rendering of Python floats, are not part of
  the model; every numeric and boolean field is.
-/

set_option maxRecDepth 1000000
set_option exponentiation.threshold 600

namespace RwaDealTracker

/-- Python truthiness of an optional number: `None` and `0` are falsy. -/
def truthyQ : Option ℚ → Bool
  | none => false
  | some x => x != 0

/-- Python truthiness of an optional integer: `None` and `0` are falsy. -/
def truthyZ : Option ℤ → Bool
  | none => false
  | some x => x != 0

/-- Python truthiness of an optional string: `None` and `""` are falsy. -/
def truthyS : Option String → Bool
  | none => false
  | some s => s != ""

/-!
## FinancialAnalysis (src/utils/financial_analysis.py)
-/

/-- The full metrics dictionary built at `financial_analysis.py` lines 163-214.
Fields whose Python value can be `float('inf')` (`debt_service_coverage_ratio`,
`break_even_ratio`, `operating_expense_ratio`) are `Option ℚ` with `none` for
infinity. -/
structure FullMetrics where
  property_price : ℚ
  monthly_rent : ℚ
  annual_rent : ℚ
  down_payment : ℚ
  down_payment_percentage : ℚ
  loan_amount : ℚ
  interest_rate : ℚ
  loan_term_years : ℕ
  monthly_mortgage_payment : ℚ
  annual_mortgage_payment : ℚ
  monthly_property_tax : ℚ
  annual_property_tax : ℚ
  monthly_insurance : ℚ
  annual_insurance : ℚ
  monthly_vacancy_cost : ℚ
  annual_vacancy_cost : ℚ
  monthly_maintenance : ℚ
  annual_maintenance : ℚ
  monthly_property_management : ℚ
  annual_property_management : ℚ
  total_monthly_expenses : ℚ
  total_annual_expenses : ℚ
  monthly_noi : ℚ
  annual_noi : ℚ
  monthly_cash_flow : ℚ
  annual_cash_flow : ℚ
  cap_rate : ℚ
  rental_yield : ℚ
  cash_on_cash_return : ℚ
  gross_rent_multiplier : ℚ
  debt_service_coverage_ratio : Option ℚ
  price_to_rent_ratio : ℚ
  break_even_ratio : Option ℚ
  operating_expense_ratio : Option ℚ
  one_percent_rule_value : ℚ
  one_percent_rule_passed : Bool
  risk_score : ℕ
  risk_level : String
  risk_factors : List String
  deriving Inhabited

/-- The three dictionary shapes `calculate_metrics` can return:
`{"error": <price message>}` (line 48), the partial payload of lines 52-60
(error flag plus exactly `down_payment`, `loan_amount`,
`monthly_mortgage_payment` — no other key), and the full dictionary of
lines 163-214. -/
inductive MetricsResult where
  | priceError : MetricsResult
  | partialResult (down_payment loan_amount monthly_mortgage_payment : ℚ) : MetricsResult
  | full (m : FullMetrics) : MetricsResult
  deriving Inhabited

/-- Message stored under `"error"`, `none` when the dictionary has no
`"error"` key (`"error" in metrics` test of `perform_stress_test` line 258). -/
def MetricsResult.errorMsg : MetricsResult → Option String
  | .priceError => some "Property price is required and must be greater than zero"
  | .partialResult _ _ _ => some "Rental information is missing, limited metrics available"
  | .full _ => none

/-- The fields of `models/property.py`'s `Property` dataclass that the
aggregation, filtering and analysis code reads.  Optional dataclass fields
default to `None`; `financial_metrics` defaults to the empty dict `{}`
(modelled as `none`; `some r` models the dict `r` produced by
`calculate_metrics`, which is how the application populates the field). -/
structure Property where
  source : String := ""
  property_type : Option String := none
  city : Option String := none
  state : Option String := none
  zip_code : Option String := none
  price : Option ℚ := none
  bedrooms : Option ℚ := none
  bathrooms : Option ℚ := none
  square_feet : Option ℚ := none
  year_built : Option ℤ := none
  monthly_rent : Option ℚ := none
  annual_rent : Option ℚ := none
  rental_yield : Option ℚ := none
  cap_rate : Option ℚ := none
  price_to_rent_ratio : Option ℚ := none
  risk_level : Option String := none
  financial_metrics : Option MetricsResult := none
  deriving Inhabited

/-- `Property.__post_init__` (property.py lines 64-84), run at every
construction, including the `Property(**vars(p))` copies made by
`perform_stress_test`.  The four `if` blocks run sequentially on the mutating
instance. -/
def postInit (p : Property) : Property :=
  -- if self.annual_rent and self.price and self.price > 0: rental_yield = annual/price*100
  let p := if truthyQ p.annual_rent && truthyQ p.price && decide (0 < p.price.getD 0) then
      { p with rental_yield := some (p.annual_rent.getD 0 / p.price.getD 0 * 100) }
    else p
  -- if self.annual_rent and self.price and self.annual_rent > 0: ptr = price/annual
  let p := if truthyQ p.annual_rent && truthyQ p.price && decide (0 < p.annual_rent.getD 0) then
      { p with price_to_rent_ratio := some (p.price.getD 0 / p.annual_rent.getD 0) }
    else p
  -- if self.monthly_rent and not self.annual_rent: annual = monthly*12, re-derive
  let p := if truthyQ p.monthly_rent && !truthyQ p.annual_rent then
      let annual := p.monthly_rent.getD 0 * 12
      let p := { p with annual_rent := some annual }
      if truthyQ p.price && decide (0 < p.price.getD 0) then
        { p with rental_yield := some (annual / p.price.getD 0 * 100),
                 price_to_rent_ratio := some (p.price.getD 0 / annual) }
      else p
    else p
  -- if self.annual_rent and not self.monthly_rent: monthly = annual/12
  if truthyQ p.annual_rent && !truthyQ p.monthly_rent then
    { p with monthly_rent := some (p.annual_rent.getD 0 / 12) }
  else p

/-- `FinancialAnalysis.DEFAULT_MORTGAGE_INTEREST_RATE = 0.055`. -/
def DEFAULT_MORTGAGE_INTEREST_RATE : ℚ := 55 / 1000

/-- `FinancialAnalysis._calculate_mortgage_payment` (lines 332-360).
`none` models the `ZeroDivisionError` the Python code raises when
`num_payments = 0` (zero-rate branch) or when `(1+c)^n - 1 = 0` (general
branch, e.g. any rate with a zero term). -/
def calculate_mortgage_payment (loan_amount annual_interest_rate : ℚ)
    (loan_term_years : ℕ) : Option ℚ :=
  let monthly_rate := annual_interest_rate / 12
  let num_payments : ℕ := loan_term_years * 12
  if monthly_rate = 0 then
    if num_payments = 0 then none
    else some (loan_amount / (num_payments : ℚ))
  else
    if (1 + monthly_rate) ^ num_payments - 1 = 0 then none
    else some (loan_amount * (monthly_rate * (1 + monthly_rate) ^ num_payments) /
      ((1 + monthly_rate) ^ num_payments - 1))

/-- `< x` test on a value that may be `float('inf')` (`none`): in Python
`inf < x` is `False`. -/
def infLt (v : Option ℚ) (x : ℚ) : Bool :=
  match v with
  | none => false
  | some q => decide (q < x)

/-- The full metrics dictionary as compiled at lines 67-214 of
`financial_analysis.py`, given the resolved `price`, `monthly_rent`,
`annual_rent` and the already-computed mortgage payment.  Pure arithmetic:
every division here is guarded in the source (`price ≠ 0`, `annual_rent ≠ 0`
hold on this path; DSCR / break-even / operating-expense ratios carry their
own guards). -/
def mkFullMetrics (price monthly_rent annual_rent down_payment_percentage
    interest_rate : ℚ) (loan_term_years : ℕ)
    (monthly_mortgage_payment : ℚ) : FullMetrics :=
  let down_payment := price * down_payment_percentage
  let loan_amount := price - down_payment
  let property_tax := price * (11/1000) / 12
  let insurance := price * (5/1000) / 12
  let vacancy_cost := monthly_rent * (5/100)
  let maintenance := monthly_rent * (5/100)
  let property_management := monthly_rent * (1/10)
  let total_monthly_expenses :=
    property_tax + insurance + vacancy_cost + maintenance + property_management
  let monthly_cash_flow := monthly_rent - monthly_mortgage_payment - total_monthly_expenses
  let annual_cash_flow := monthly_cash_flow * 12
  let monthly_noi := monthly_rent - total_monthly_expenses
  let annual_noi := monthly_noi * 12
  let cap_rate := annual_noi / price * 100
  let rental_yield := annual_rent / price * 100
  let cash_on_cash_return := annual_cash_flow / down_payment * 100
  let annual_debt_service := monthly_mortgage_payment * 12
  let debt_service_coverage_ratio : Option ℚ :=
    if 0 < annual_debt_service then some (annual_noi / annual_debt_service) else none
  let break_even_ratio : Option ℚ :=
    if 0 < monthly_rent then some ((total_monthly_expenses + monthly_mortgage_payment) / monthly_rent)
    else none
  let operating_expense_ratio : Option ℚ :=
    if 0 < monthly_rent then some (total_monthly_expenses / monthly_rent) else none
  let one_percent_rule_value := if 0 < price then monthly_rent / price * 100 else 0
  let one_percent_rule_passed : Bool := decide (1 ≤ one_percent_rule_value)
  -- risk scoring, lines 118-160, in source order
  let capRisk : List String × ℕ :=
    if cap_rate < 4 then (["Low cap rate"], 2)
    else if cap_rate < 6 then (["Moderate cap rate"], 1) else ([], 0)
  let cocRisk : List String × ℕ :=
    if cash_on_cash_return < 4 then (["Low cash on cash return"], 2)
    else if cash_on_cash_return < 8 then (["Moderate cash on cash return"], 1) else ([], 0)
  let dscrRisk : List String × ℕ :=
    if infLt debt_service_coverage_ratio 1 then (["DSCR below 1.0 (negative cash flow)"], 3)
    else if infLt debt_service_coverage_ratio (5/4) then (["Low DSCR (tight cash flow)"], 2)
    else if infLt debt_service_coverage_ratio (3/2) then (["Moderate DSCR"], 1) else ([], 0)
  let oneRisk : List String × ℕ :=
    if !one_percent_rule_passed then (["Does not meet 1% rule"], 1) else ([], 0)
  let risk_factors := capRisk.1 ++ cocRisk.1 ++ dscrRisk.1 ++ oneRisk.1
  let risk_score := capRisk.2 + cocRisk.2 + dscrRisk.2 + oneRisk.2
  let risk_level := if risk_score ≤ 1 then "Low"
    else if risk_score ≤ 4 then "Moderate" else "High"
  { property_price := price
    monthly_rent := monthly_rent
    annual_rent := annual_rent
    down_payment := down_payment
    down_payment_percentage := down_payment_percentage * 100
    loan_amount := loan_amount
    interest_rate := interest_rate * 100
    loan_term_years := loan_term_years
    monthly_mortgage_payment := monthly_mortgage_payment
    annual_mortgage_payment := monthly_mortgage_payment * 12
    monthly_property_tax := property_tax
    annual_property_tax := property_tax * 12
    monthly_insurance := insurance
    annual_insurance := insurance * 12
    monthly_vacancy_cost := vacancy_cost
    annual_vacancy_cost := vacancy_cost * 12
    monthly_maintenance := maintenance
    annual_maintenance := maintenance * 12
    monthly_property_management := property_management
    annual_property_management := property_management * 12
    total_monthly_expenses := total_monthly_expenses
    total_annual_expenses := total_monthly_expenses * 12
    monthly_noi := monthly_noi
    annual_noi := annual_noi
    monthly_cash_flow := monthly_cash_flow
    annual_cash_flow := annual_cash_flow
    cap_rate := cap_rate
    rental_yield := rental_yield
    cash_on_cash_return := cash_on_cash_return
    gross_rent_multiplier := price / annual_rent
    debt_service_coverage_ratio := debt_service_coverage_ratio
    price_to_rent_ratio := price / annual_rent
    break_even_ratio := break_even_ratio
    operating_expense_ratio := operating_expense_ratio
    one_percent_rule_value := one_percent_rule_value
    one_percent_rule_passed := one_percent_rule_passed
    risk_score := risk_score
    risk_level := risk_level
    risk_factors := risk_factors }

/-- Line 45:
`annual_rent = property_data.annual_rent or (monthly_rent * 12 if monthly_rent else None)`. -/
def resolveAnnualRent (property_data : Property) : Option ℚ :=
  if truthyQ property_data.annual_rent then property_data.annual_rent
  else if truthyQ property_data.monthly_rent then
    some (property_data.monthly_rent.getD 0 * 12)
  else none

/-- Lines 63-64: `if not monthly_rent: monthly_rent = annual_rent / 12`. -/
def resolveMonthlyRent (property_data : Property) (annual_rent : ℚ) : ℚ :=
  if truthyQ property_data.monthly_rent then property_data.monthly_rent.getD 0
  else annual_rent / 12

/-- `FinancialAnalysis.calculate_metrics` (lines 20-216).  `none` models an
uncaught exception: the `ZeroDivisionError` from the mortgage-payment helper,
or the `ZeroDivisionError` at line 96 (`annual_cash_flow / down_payment`) when
`down_payment = 0`. -/
def calculate_metrics (property_data : Property)
    (down_payment_percentage : ℚ := 1/5)
    (interest_rate? : Option ℚ := none)
    (loan_term_years : ℕ := 30) : Option MetricsResult :=
  -- interest_rate = interest_rate?.getD DEFAULT; if not price or price <= 0
  match property_data.price with
  | none => some .priceError
  | some price =>
    if price = 0 ∨ price ≤ 0 then some .priceError
    else if !truthyQ (resolveAnnualRent property_data) then
      -- partial path, lines 51-60; down_payment = price * pct, loan = price - dp
      match calculate_mortgage_payment (price - price * down_payment_percentage)
          (interest_rate?.getD DEFAULT_MORTGAGE_INTEREST_RATE) loan_term_years with
      | none => none
      | some pay => some (.partialResult (price * down_payment_percentage)
          (price - price * down_payment_percentage) pay)
    else
      -- full path, lines 62-216
      match calculate_mortgage_payment (price - price * down_payment_percentage)
          (interest_rate?.getD DEFAULT_MORTGAGE_INTEREST_RATE) loan_term_years with
      | none => none
      | some pay =>
        if price * down_payment_percentage = 0 then none  -- line 96 raises
        else some (.full (mkFullMetrics price
          (resolveMonthlyRent property_data ((resolveAnnualRent property_data).getD 0))
          ((resolveAnnualRent property_data).getD 0)
          down_payment_percentage
          (interest_rate?.getD DEFAULT_MORTGAGE_INTEREST_RATE) loan_term_years pay))

/-- One stress scenario payload: `monthly_cash_flow`, `annual_cash_flow`,
`still_profitable` (the display-only `scenario` string is not modelled). -/
structure StressEntry where
  monthly_cash_flow : ℚ
  annual_cash_flow : ℚ
  still_profitable : Bool


/-- The interest-rate stress entry also records the recomputed mortgage
payment. -/
structure InterestStressEntry where
  monthly_mortgage_payment : ℚ
  monthly_cash_flow : ℚ
  annual_cash_flow : ℚ
  still_profitable : Bool


/-- Result dictionary of `perform_stress_test` on the success path. -/
structure StressTests where
  increased_vacancy : StressEntry
  interest_rate_increase : InterestStressEntry
  combined_stress : StressEntry
  passed_all_tests : Bool
  worst_case_monthly_cash_flow : ℚ


/-- `FinancialAnalysis.perform_stress_test` (lines 243-330).  Outer `none`
models an uncaught exception (a `ZeroDivisionError` from the base computation,
a `KeyError` on `metrics["monthly_cash_flow"]` when a recomputation returned
an error/partial dictionary, or a `TypeError` when `property_data.monthly_rent`
is `None` at line 271).  `Except.error msg` models the early
`{"error": base_metrics["error"]}` return of line 259. -/
def perform_stress_test (property_data : Property) :
    Option (Except String StressTests) :=
  match calculate_metrics property_data with
  | none => none
  | some base =>
    match base.errorMsg with
    | some msg => some (.error msg)
    | none =>
      -- vacancy_property = Property(**vars(property_data)); re-runs __post_init__
      match calculate_metrics (postInit property_data) (1/5) with
      | some (.full vtm) =>
        match property_data.monthly_rent with
        | none => none  -- None * 0.05 raises TypeError
        | some monthly_rent =>
          let vacancy_adjusted := vtm.monthly_cash_flow - monthly_rent * (5/100)
          let iv : StressEntry :=
            ⟨vacancy_adjusted, vacancy_adjusted * 12, decide (0 < vacancy_adjusted)⟩
          match calculate_metrics property_data (1/5)
              (some (DEFAULT_MORTGAGE_INTEREST_RATE + 2/100)) with
          | some (.full him) =>
            let ir : InterestStressEntry :=
              ⟨him.monthly_mortgage_payment, him.monthly_cash_flow,
               him.annual_cash_flow, decide (0 < him.monthly_cash_flow)⟩
            match calculate_metrics (postInit property_data) (1/5)
                (some (DEFAULT_MORTGAGE_INTEREST_RATE + 2/100)) with
            | some (.full cm) =>
              let combined_adjusted := cm.monthly_cash_flow
                - monthly_rent * (5/100) - monthly_rent * ((5/100) * (1/2))
              let cs : StressEntry :=
                ⟨combined_adjusted, combined_adjusted * 12, decide (0 < combined_adjusted)⟩
              some (.ok ⟨iv, ir, cs,
                iv.still_profitable && ir.still_profitable && cs.still_profitable,
                combined_adjusted⟩)
            | _ => none
          | _ => none
      | _ => none

/-!
## DataAggregator (src/utils/data_aggregator.py)
-/

/-- Case-insensitive containment used by the property-type filters:
Python `pt in p.property_type.lower()` where `pt` is already lowered. -/
def typeMatches (property_types_lower : List String) (p : Property) : Bool :=
  truthyS p.property_type &&
    property_types_lower.any
      (fun pt => decide (pt.toList <:+: (p.property_type.getD "").toLower.toList))

/-- The property-type retention step of `fetch_properties` (lines 82-88);
`none` models the `property_types=None` default, and an empty list is falsy
so the filter is skipped. -/
def typeFilter (property_types : Option (List String)) (ps : List Property) :
    List Property :=
  match property_types with
  | none => ps
  | some ts =>
    if ts.isEmpty then ps
    else ps.filter (typeMatches (ts.map String.toLower))

/-- Outcome of one adapter future: `.ok records` models `future.result()`
returning normally, `.error e` models an exception raised out of the future
(timeout, parse error, network error) caught and logged at lines 79-80. -/
def recoverFetch : Except String (List Property) → List Property
  | .ok l => l
  | .error _ => []

/-- `_fetch_from_zillow` / `_fetch_from_loopnet` (lines 93-141): the scraper
call wrapped in a try/except that turns any scraper exception into `[]`. -/
def fetch_from_source (scraper_outcome : Except String (List Property)) :
    List Property :=
  recoverFetch scraper_outcome

/-- `DataAggregator.fetch_properties` (lines 23-91), parameterized by the
per-future outcomes in `as_completed` order: the collection loop extends
`all_properties` with each successful future's records and swallows failures
(lines 73-80), then the property-type filter runs. -/
def fetch_properties (outcomes : List (Except String (List Property)))
    (property_types : Option (List String) := none) : List Property :=
  typeFilter property_types (outcomes.foldl (fun acc o => acc ++ recoverFetch o) [])

/-- The `filters` dictionary of `DataAggregator.filter_properties`:
`none` models a key that is absent or mapped to `None` (for ranges) — for the
list-valued keys the code additionally skips an empty (falsy) list. -/
structure Filters where
  sources : Option (List String) := none
  property_types : Option (List String) := none
  min_price : Option ℚ := none
  max_price : Option ℚ := none
  min_bedrooms : Option ℚ := none
  max_bedrooms : Option ℚ := none
  min_rental_yield : Option ℚ := none
  max_rental_yield : Option ℚ := none
  min_cap_rate : Option ℚ := none
  max_cap_rate : Option ℚ := none
  min_square_feet : Option ℚ := none
  max_square_feet : Option ℚ := none
  min_year_built : Option ℤ := none
  max_year_built : Option ℤ := none
  min_cash_flow : Option ℚ := none
  risk_levels : Option (List String) := none
  locations : Option (List String) := none

/-- `p.financial_metrics.get("cap_rate", 0)`. -/
def fmCapRate : Option MetricsResult → ℚ
  | some (.full m) => m.cap_rate
  | _ => 0

/-- `p.financial_metrics.get("monthly_cash_flow", 0)`. -/
def fmCashFlow : Option MetricsResult → ℚ
  | some (.full m) => m.monthly_cash_flow
  | _ => 0

/-- `p.financial_metrics.get("risk_level", "")`. -/
def fmRiskLevel : Option MetricsResult → String
  | some (.full m) => m.risk_level
  | _ => ""

/-- Python truthiness of `p.financial_metrics` (a dict: falsy iff empty). -/
def fmTruthy : Option MetricsResult → Bool
  | none => false
  | some _ => true

/-- One conditional range step of `filter_properties`: skipped when the
filter value is absent/`None`. -/
def rangeStep (v : Option β) (pred : β → Property → Bool) (ps : List Property) :
    List Property :=
  match v with
  | none => ps
  | some m => ps.filter (pred m)

/-- One conditional list-valued step, additionally skipped on an empty list. -/
def listStep (v : Option (List String)) (pred : List String → Property → Bool)
    (ps : List Property) : List Property :=
  match v with
  | none => ps
  | some l => if l.isEmpty then ps else ps.filter (pred l)

/-- `DataAggregator.filter_properties` (lines 189-290): the seventeen
independently-toggleable AND-combined passes in source order.  Each predicate
transcribes the corresponding list comprehension, including every Python
truthiness guard (`p.price and ...` etc.) and the `financial_metrics`
fallbacks of the cap-rate / cash-flow / risk-level passes. -/
def filter_properties (properties : List Property) (filters : Filters) :
    List Property :=
  let ps := properties
  let ps := listStep filters.sources (fun l p => l.contains p.source) ps
  let ps := listStep filters.property_types
    (fun l p => typeMatches (l.map String.toLower) p) ps
  let ps := rangeStep filters.min_price
    (fun m p => truthyQ p.price && decide (m ≤ p.price.getD 0)) ps
  let ps := rangeStep filters.max_price
    (fun m p => truthyQ p.price && decide (p.price.getD 0 ≤ m)) ps
  let ps := rangeStep filters.min_bedrooms
    (fun m p => truthyQ p.bedrooms && decide (m ≤ p.bedrooms.getD 0)) ps
  let ps := rangeStep filters.max_bedrooms
    (fun m p => truthyQ p.bedrooms && decide (p.bedrooms.getD 0 ≤ m)) ps
  let ps := rangeStep filters.min_rental_yield
    (fun m p => truthyQ p.rental_yield && decide (m ≤ p.rental_yield.getD 0)) ps
  let ps := rangeStep filters.max_rental_yield
    (fun m p => truthyQ p.rental_yield && decide (p.rental_yield.getD 0 ≤ m)) ps
  let ps := rangeStep filters.min_cap_rate
    (fun m p => (truthyQ p.cap_rate && decide (m ≤ p.cap_rate.getD 0)) ||
      (fmTruthy p.financial_metrics && decide (m ≤ fmCapRate p.financial_metrics))) ps
  let ps := rangeStep filters.max_cap_rate
    (fun m p => (truthyQ p.cap_rate && decide (p.cap_rate.getD 0 ≤ m)) ||
      (fmTruthy p.financial_metrics && decide (fmCapRate p.financial_metrics ≤ m))) ps
  let ps := rangeStep filters.min_square_feet
    (fun m p => truthyQ p.square_feet && decide (m ≤ p.square_feet.getD 0)) ps
  let ps := rangeStep filters.max_square_feet
    (fun m p => truthyQ p.square_feet && decide (p.square_feet.getD 0 ≤ m)) ps
  let ps := rangeStep filters.min_year_built
    (fun m p => truthyZ p.year_built && decide (m ≤ p.year_built.getD 0)) ps
  let ps := rangeStep filters.max_year_built
    (fun m p => truthyZ p.year_built && decide (p.year_built.getD 0 ≤ m)) ps
  let ps := rangeStep filters.min_cash_flow
    (fun m p => fmTruthy p.financial_metrics &&
      decide (m ≤ fmCashFlow p.financial_metrics)) ps
  let ps := listStep filters.risk_levels
    (fun l p =>
      let rl := l.map String.toLower
      (truthyS p.risk_level && rl.contains (p.risk_level.getD "").toLower) ||
      (fmTruthy p.financial_metrics &&
        rl.contains (fmRiskLevel p.financial_metrics).toLower)) ps
  let ps := listStep filters.locations
    (fun l p =>
      let ll := l.map String.toLower
      (truthyS p.city && ll.contains (p.city.getD "").toLower) ||
      (truthyS p.state && ll.contains (p.state.getD "").toLower) ||
      (truthyS p.zip_code && l.contains (p.zip_code.getD ""))) ps
  ps

/-!
## Cache (src/utils/cache_utils.py)
-/

/-- Backing store of one cache tier: key (or file path) → (value, expiry
instant).  Instants are `ℚ` seconds as returned by `time.time()`. -/
def CacheStore (α : Type) := String → Option (α × ℚ)

/-- Deletion of one entry (the `del cls._cache[key]` / `os.remove` step). -/
def CacheStore.removeKey (s : CacheStore α) (k : String) : CacheStore α :=
  fun k2 => if k2 = k then none else s k2

/-- `MemoryCache.get` (lines 23-35): serve an unexpired entry
(`expiry > time.time()`); delete an expired entry and miss; miss on absence.
Returns the Python return value together with the post-call store. -/
def memoryCacheGet (s : CacheStore α) (key : String) (now : ℚ) :
    Option α × CacheStore α :=
  match s key with
  | none => (none, s)
  | some (v, expiry) =>
    if now < expiry then (some v, s) else (none, s.removeKey key)

/-- `MemoryCache.set` (lines 37-42): store `(value, time.time() + ttl)`. -/
def memoryCacheSet (s : CacheStore α) (key : String) (v : α) (ttl now : ℚ) :
    CacheStore α :=
  fun k2 => if k2 = key then some (v, now + ttl) else s k2

/-- `DiskCache._get_cache_path` (lines 54-58): the key is content-addressed to
`md5(key).hexdigest() + ".cache"`.  No claim depends on the digest's value,
only on the path being a function of the key (injective in practice); the
digest step is modelled as the identity, keeping the path map injective. -/
def diskCachePath (key : String) : String := key ++ ".cache"

/-- `DiskCache.get` (lines 60-77): like the memory tier but keyed through
`diskCachePath`; an expired file is removed (`os.remove`) and the call is a
miss. -/
def diskCacheGet (s : CacheStore α) (key : String) (now : ℚ) :
    Option α × CacheStore α :=
  match s (diskCachePath key) with
  | none => (none, s)
  | some (v, expiry) =>
    if now < expiry then (some v, s) else (none, s.removeKey (diskCachePath key))

/-- `DiskCache.set` (lines 79-89) on the well-formed-store model. -/
def diskCacheSet (s : CacheStore α) (key : String) (v : α) (ttl now : ℚ) :
    CacheStore α :=
  fun k2 => if k2 = diskCachePath key then some (v, now + ttl) else s k2

/-- The order Python's `sorted(kwargs.items())` uses: lexicographic on the
`(key, value)` string pair. -/
def kwLE (a b : String × String) : Prop := a.1 < b.1 ∨ (a.1 = b.1 ∧ a.2 ≤ b.2)

instance kwLE.decidableRel : DecidableRel kwLE := fun a b => by
  unfold kwLE; infer_instance

/-- The decorator's cache key (lines 110-114):
`":".join([func.__name__] + [str(a) for a in args] + [f"{k}={v}" for k, v in
sorted(kwargs.items())])`.  Arguments enter only through their `str(...)`
rendering, so they are modelled as the strings they render to; dict keys are
unique, so the stable insertion sort on the `(key, value)` order coincides
with Python's `sorted`. -/
def cacheKey (func_name : String) (args : List String)
    (kwargs : List (String × String)) : String :=
  String.intercalate ":" ([func_name] ++ args ++
    (List.insertionSort kwLE kwargs).map (fun kv => kv.1 ++ "=" ++ kv.2))

/-- One call through the `cache(...)` decorator's wrapper (lines 107-130),
memory tier (`use_disk=False`).  `f_result` is the value the wrapped function
returns if invoked on this call; a Python `None` result is `none`, so the
store holds `Option α` values.  Returns (wrapper return value, post-call
store, whether the wrapped function was invoked). -/
def cachedCallMemory (s : CacheStore (Option α)) (now : ℚ) (func_name : String)
    (args : List String) (kwargs : List (String × String)) (ttl : ℚ)
    (f_result : Option α) : Option α × CacheStore (Option α) × Bool :=
  let key := cacheKey func_name args kwargs
  let (hit, s1) := memoryCacheGet s key now
  -- cached_value = cache_handler.get(cache_key): a stored None and a miss
  -- both surface as Python None
  let cached_value : Option α := match hit with | some v => v | none => none
  match cached_value with
  | some x => (some x, s1, false)          -- `if cached_value is not None`
  | none => (f_result, memoryCacheSet s1 key f_result ttl now, true)

/-- The same wrapper with `use_disk=True`. -/
def cachedCallDisk (s : CacheStore (Option α)) (now : ℚ) (func_name : String)
    (args : List String) (kwargs : List (String × String)) (ttl : ℚ)
    (f_result : Option α) : Option α × CacheStore (Option α) × Bool :=
  let key := cacheKey func_name args kwargs
  let (hit, s1) := diskCacheGet s key now
  let cached_value : Option α := match hit with | some v => v | none => none
  match cached_value with
  | some x => (some x, s1, false)
  | none => (f_result, diskCacheSet s1 key f_result ttl now, true)

/-!
## Helpers for stating the claims
-/

/-- Projection of a successfully computed full metrics dictionary. -/
def fullOf : Option MetricsResult → Option FullMetrics
  | some (.full m) => some m
  | _ => none

/-- Projection of a successful stress-test result. -/
def stressOk : Option (Except String StressTests) → Option StressTests
  | some (.ok t) => some t
  | _ => none

/-- `≤` on values that must both exist. -/
def leOpt : Option ℚ → Option ℚ → Bool
  | some a, some b => decide (a ≤ b)
  | _, _ => false

/-- Strict `<` on values that must both exist. -/
def ltOpt : Option ℚ → Option ℚ → Bool
  | some a, some b => decide (a < b)
  | _, _ => false

/-- The spec's worked example: `Property(price=300000, monthly_rent=2000)`
after its construction-time `__post_init__` normalization. -/
def exampleProperty : Property :=
  postInit { price := some 300000, monthly_rent := some 2000 }

/-- A listing with a price but no rent data at all. -/
def noRentProperty : Property := postInit { price := some 300000 }

/-- A constructible listing whose supplied `annual_rent` (12000) is
inconsistent with its supplied `monthly_rent` (3000): both fields are truthy,
so `__post_init__` derives neither from the other. -/
def inconsistentRentProperty : Property :=
  postInit { price := some 100000, monthly_rent := some 3000,
             annual_rent := some 12000 }

/-- The full metrics of the inconsistent listing at a 1-year term (a small
term keeps the concrete evaluation light). -/
def inconsistentRentMetrics : FullMetrics :=
  match calculate_metrics inconsistentRentProperty (1/5) none 1 with
  | some (.full m) => m
  | _ => default

/-- A record with no `cap_rate` of its own but a non-empty
`financial_metrics` dict that lacks the `"cap_rate"` key (the partial
missing-rent payload). -/
def missingCapRateRecord : Property :=
  { cap_rate := none, financial_metrics := some (.partialResult 60000 240000 1500) }

/-- A record that is truthy in every directly range-checked field. -/
def allFieldsRecord : Property :=
  { price := some 100, bedrooms := some 2, rental_yield := some 5,
    square_feet := some 900, year_built := some 1990 }

/-- A filter specification supplying every truthiness-guarded range bound,
satisfied by `allFieldsRecord`. -/
def allRangeFilters : Filters :=
  { min_price := some 50, max_price := some 200, min_bedrooms := some 1,
    min_rental_yield := some 1, max_rental_yield := some 10,
    min_square_feet := some 100, max_square_feet := some 1000,
    min_year_built := some 1900, max_year_built := some 2000 }

/-- A listing whose rent fields are both exactly 0. -/
def zeroRentProperty : Property :=
  { price := some 100000, monthly_rent := some 0, annual_rent := some 0 }

/-- A cache store whose every entry holds the Python value `None`. -/
def noneStore : CacheStore (Option ℕ) := fun _ => some (none, 10)

/-- The default-parameter mortgage payment on the 240000 loan of the worked
example (5.5% over 30 years). -/
def examplePartialPayment : ℚ :=
  240000 * (55/1000/12 * (1 + 55/1000/12) ^ (360:ℕ)) /
    ((1 + 55/1000/12) ^ (360:ℕ) - 1)

/-!
## Helper lemmas
-/

lemma foldl_append_flatten {α β : Type} (f : α → List β) (l : List α)
    (acc : List β) :
    l.foldl (fun a o => a ++ f o) acc = acc ++ (l.map f).flatten := by
  induction l generalizing acc with
  | nil => simp
  | cons x xs ih => simp [ih, List.append_assoc]

lemma mortgage_payment_defined (L r : ℚ) (y : ℕ) (hr : 0 < r) (hy : y ≠ 0) :
    ∃ pay, calculate_mortgage_payment L r y = some pay := by
  have hc : 0 < r / 12 := by positivity
  have hpow : 1 < (1 + r / 12) ^ (y * 12) :=
    one_lt_pow₀ (by linarith) (by omega)
  refine ⟨L * (r / 12 * (1 + r / 12) ^ (y * 12)) /
    ((1 + r / 12) ^ (y * 12) - 1), ?_⟩
  simp only [calculate_mortgage_payment]
  rw [if_neg hc.ne', if_neg (sub_ne_zero_of_ne hpow.ne')]

instance kwLE.isTotal : IsTotal (String × String) kwLE := by
  constructor
  intro a b
  rcases lt_trichotomy a.1 b.1 with h | h | h
  · exact .inl (.inl h)
  · rcases le_total a.2 b.2 with h2 | h2
    · exact .inl (.inr ⟨h, h2⟩)
    · exact .inr (.inr ⟨h.symm, h2⟩)
  · exact .inr (.inl h)

instance kwLE.isTrans : IsTrans (String × String) kwLE := by
  constructor
  intro a b c hab hbc
  rcases hab with h1 | ⟨e1, l1⟩ <;> rcases hbc with h2 | ⟨e2, l2⟩
  · exact .inl (h1.trans h2)
  · exact .inl (e2 ▸ h1)
  · exact .inl (e1 ▸ h2)
  · exact .inr ⟨e1.trans e2, l1.trans l2⟩

instance kwLE.isAntisymm : IsAntisymm (String × String) kwLE := by
  constructor
  intro a b hab hba
  rcases hab with h1 | ⟨e1, l1⟩
  · rcases hba with h2 | ⟨e2, l2⟩
    · exact absurd h1 (lt_asymm h2)
    · exact absurd (e2 ▸ h1) (lt_irrefl _)
  · rcases hba with h2 | ⟨e2, l2⟩
    · exact absurd (e1 ▸ h2) (lt_irrefl _)
    · exact Prod.ext e1 (le_antisymm l1 l2)

lemma mem_rangeStep {β : Type} {v : Option β} {pred : β → Property → Bool}
    {ps : List Property} {r : Property} (h : r ∈ rangeStep v pred ps) :
    r ∈ ps ∧ ∀ m, v = some m → pred m r = true := by
  cases v with
  | none => exact ⟨h, by intro m hm; cases hm⟩
  | some m =>
    rw [rangeStep, List.mem_filter] at h
    exact ⟨h.1, by intro m2 hm; cases hm; exact h.2⟩

lemma mem_listStep {v : Option (List String)}
    {pred : List String → Property → Bool} {ps : List Property} {r : Property}
    (h : r ∈ listStep v pred ps) : r ∈ ps := by
  cases v with
  | none => exact h
  | some l =>
    rw [listStep] at h
    split at h
    · exact h
    · exact (List.mem_filter.mp h).1

lemma calc_full_inv {p : Property} {dp : ℚ} {ir : Option ℚ} {y : ℕ}
    {m : FullMetrics} (h : calculate_metrics p dp ir y = some (.full m)) :
    ∃ price monthly_rent annual_rent pay, p.price = some price ∧ 0 < price ∧
      m = mkFullMetrics price monthly_rent annual_rent dp
        (ir.getD DEFAULT_MORTGAGE_INTEREST_RATE) y pay := by
  unfold calculate_metrics at h
  split at h
  next => simp at h
  next price hp =>
    split at h
    next => simp at h
    next hcond =>
      split at h
      next =>
        split at h <;> simp at h
      next =>
        split at h
        next => simp at h
        next pay hpay =>
          split at h
          next => simp at h
          next hdp =>
            rw [Option.some_inj] at h
            cases h
            push_neg at hcond
            exact ⟨price, _, _, pay, hp, hcond.2, rfl⟩

lemma div_mul_hundred_inj {a b p : ℚ} (hp : 0 < p) :
    a / p * 100 = b / p * 100 ↔ a = b := by
  constructor
  · intro h
    have h2 : a / p = b / p := mul_right_cancel₀ (by norm_num) h
    calc a = a / p * p := (div_mul_cancel₀ a hp.ne').symm
    _ = b / p * p := by rw [h2]
    _ = b := div_mul_cancel₀ b hp.ne'
  · rintro rfl; rfl

lemma div_mul_hundred_lt {a b p : ℚ} (hp : 0 < p) (h : a < b) :
    a / p * 100 < b / p * 100 :=
  (mul_lt_mul_right (by norm_num : (0:ℚ) < 100)).mpr
    ((div_lt_div_iff_of_pos_right hp).mpr h)

/-!
## Claims
-/

/-- C1.  The spec claims the FinancialEngine entry points are total — in
particular `calculate_metrics` for `loan_term_years = 0`.  In fact, at a zero
term the code raises `ZeroDivisionError` inside
`_calculate_mortgage_payment` (the general branch divides by
`(1+c)^0 - 1 = 0`; the zero-rate branch divides by `num_payments = 0`),
despite that helper's own "Guard against division by zero" comment.
`none` is the model's exception value. -/
theorem calculate_metrics_raises_at_zero_term :
    calculate_metrics exampleProperty (1/5) none 0 = none ∧
    calculate_metrics exampleProperty (1/5) (some 0) 0 = none ∧
    calculate_mortgage_payment 240000 DEFAULT_MORTGAGE_INTEREST_RATE 0 = none ∧
    calculate_mortgage_payment 240000 0 0 = none := by
  refine ⟨?_, ?_, ?_, ?_⟩ <;> with_unfolding_all rfl

/-- C4.  `fetch_properties` returns the property-type-filtered concatenation
of the records of exactly the adapter futures that succeeded; a future that
raised is logged and contributes nothing — dropping it from the completion
sequence leaves the result unchanged, and it never aborts or nulls out the
aggregation. -/
theorem fetch_properties_partial_failure_union
    (outs pre post : List (Except String (List Property))) (e : String)
    (ts : Option (List String)) :
    fetch_properties outs ts = typeFilter ts ((outs.map recoverFetch).flatten) ∧
    fetch_properties (pre ++ .error e :: post) ts =
      fetch_properties (pre ++ post) ts := by
  constructor
  · rw [fetch_properties, foldl_append_flatten, List.nil_append]
  · rw [fetch_properties, fetch_properties, foldl_append_flatten,
      foldl_append_flatten]
    simp [recoverFetch]

/-- C7.  For the example listing (price 300000, monthly rent 2000) under the
default parameters, the stress scenarios degrade monotonically:
`combined_stress.monthly_cash_flow ≤ increased_vacancy.monthly_cash_flow ≤`
the base `monthly_cash_flow` of `calculate_metrics`. -/
theorem stress_test_monotonic_degradation :
    leOpt ((stressOk (perform_stress_test exampleProperty)).map
        (·.combined_stress.monthly_cash_flow))
      ((stressOk (perform_stress_test exampleProperty)).map
        (·.increased_vacancy.monthly_cash_flow)) = true ∧
    leOpt ((stressOk (perform_stress_test exampleProperty)).map
        (·.increased_vacancy.monthly_cash_flow))
      ((fullOf (calculate_metrics exampleProperty)).map
        (·.monthly_cash_flow)) = true := by
  constructor <;> with_unfolding_all rfl

/-- Extracts the truthiness guard from a passed conjunctive range predicate. -/
lemma truthy_of_guard {β : Type} {v : Option β} {a : Bool} {f : β → Bool}
    (hg : ∀ m, v = some m → (a && f m) = true) (hne : v ≠ none) : a = true := by
  cases hv : v with
  | none => exact absurd hv hne
  | some m =>
    have hb := hg m hv
    rw [Bool.and_eq_true] at hb
    exact hb.1

/-- C2 counterexample: a record whose `cap_rate` is missing passes a supplied
`max_cap_rate` range check, because the filter falls back to
`financial_metrics.get("cap_rate", 0)` on any non-empty metrics dict. -/
theorem filter_missing_cap_rate_passes :
    filter_properties [missingCapRateRecord] { max_cap_rate := some 10 } =
      [missingCapRateRecord] ∧
    missingCapRateRecord.cap_rate = none := by
  constructor
  · with_unfolding_all rfl
  · rfl

/-- C2 (amended).  For the truthiness-guarded dimensions — price, bedrooms,
rental-yield, square-footage and year-built ranges — a record that survives
`filter_properties` under a supplied bound has the checked field present and
non-zero; missing or zero values never pass those checks.  (The cap-rate and
cash-flow dimensions are excluded: they consult `financial_metrics` with
default 0, as the counterexample shows.) -/
theorem filter_truthiness_guards (r : Property) (ps : List Property)
    (fs : Filters) (h : r ∈ filter_properties ps fs) :
    (fs.min_price ≠ none → truthyQ r.price = true) ∧
    (fs.max_price ≠ none → truthyQ r.price = true) ∧
    (fs.min_bedrooms ≠ none → truthyQ r.bedrooms = true) ∧
    (fs.min_rental_yield ≠ none → truthyQ r.rental_yield = true) ∧
    (fs.max_rental_yield ≠ none → truthyQ r.rental_yield = true) ∧
    (fs.min_square_feet ≠ none → truthyQ r.square_feet = true) ∧
    (fs.max_square_feet ≠ none → truthyQ r.square_feet = true) ∧
    (fs.min_year_built ≠ none → truthyZ r.year_built = true) ∧
    (fs.max_year_built ≠ none → truthyZ r.year_built = true) := by
  simp only [filter_properties] at h
  have h := mem_listStep h
  have h := mem_listStep h
  obtain ⟨h, -⟩ := mem_rangeStep h
  obtain ⟨h, hmaxyb⟩ := mem_rangeStep h
  obtain ⟨h, hminyb⟩ := mem_rangeStep h
  obtain ⟨h, hmaxsf⟩ := mem_rangeStep h
  obtain ⟨h, hminsf⟩ := mem_rangeStep h
  obtain ⟨h, -⟩ := mem_rangeStep h
  obtain ⟨h, -⟩ := mem_rangeStep h
  obtain ⟨h, hmaxry⟩ := mem_rangeStep h
  obtain ⟨h, hminry⟩ := mem_rangeStep h
  obtain ⟨h, -⟩ := mem_rangeStep h
  obtain ⟨h, hminbd⟩ := mem_rangeStep h
  obtain ⟨h, hmaxp⟩ := mem_rangeStep h
  obtain ⟨h, hminp⟩ := mem_rangeStep h
  exact ⟨truthy_of_guard hminp, truthy_of_guard hmaxp, truthy_of_guard hminbd,
    truthy_of_guard hminry, truthy_of_guard hmaxry, truthy_of_guard hminsf,
    truthy_of_guard hmaxsf, truthy_of_guard hminyb, truthy_of_guard hmaxyb⟩

/-- Witness for C2 (amended): a fully-populated record passing every
truthiness-guarded bound. -/
theorem filter_truthiness_guards_witness :
    allFieldsRecord ∈ filter_properties [allFieldsRecord] allRangeFilters ∧
    ((allRangeFilters.min_price ≠ none → truthyQ allFieldsRecord.price = true) ∧
     (allRangeFilters.max_price ≠ none → truthyQ allFieldsRecord.price = true) ∧
     (allRangeFilters.min_bedrooms ≠ none → truthyQ allFieldsRecord.bedrooms = true) ∧
     (allRangeFilters.min_rental_yield ≠ none → truthyQ allFieldsRecord.rental_yield = true) ∧
     (allRangeFilters.max_rental_yield ≠ none → truthyQ allFieldsRecord.rental_yield = true) ∧
     (allRangeFilters.min_square_feet ≠ none → truthyQ allFieldsRecord.square_feet = true) ∧
     (allRangeFilters.max_square_feet ≠ none → truthyQ allFieldsRecord.square_feet = true) ∧
     (allRangeFilters.min_year_built ≠ none → truthyZ allFieldsRecord.year_built = true) ∧
     (allRangeFilters.max_year_built ≠ none → truthyZ allFieldsRecord.year_built = true)) := by
  have hmem : allFieldsRecord ∈ filter_properties [allFieldsRecord] allRangeFilters := by
    with_unfolding_all exact List.Mem.head _
  exact ⟨hmem, filter_truthiness_guards _ _ _ hmem⟩

/-- C3.  For a property with positive price and neither rent field available
(absent or zero), `calculate_metrics` returns exactly the partial payload:
the error flag plus `down_payment = price * pct`,
`loan_amount = price - down_payment` and the amortization-formula mortgage
payment — and no other metric field (the `partialResult` shape carries
nothing else). -/
theorem calculate_metrics_partial_contract (p : Property) (price dp : ℚ)
    (ir : Option ℚ) (y : ℕ) (pay : ℚ)
    (hp : p.price = some price) (hpos : 0 < price)
    (hmr : truthyQ p.monthly_rent = false) (har : truthyQ p.annual_rent = false)
    (hpay : calculate_mortgage_payment (price - price * dp)
      (ir.getD DEFAULT_MORTGAGE_INTEREST_RATE) y = some pay) :
    calculate_metrics p dp ir y =
      some (.partialResult (price * dp) (price - price * dp) pay) := by
  have hcond : ¬(price = 0 ∨ price ≤ 0) := by
    push_neg
    exact ⟨hpos.ne', hpos⟩
  have hra : resolveAnnualRent p = none := by
    simp [resolveAnnualRent, hmr, har]
  simp [calculate_metrics, hp, hcond, hra, hpay, truthyQ]

/-- Witness for C3 at the no-rent worked example. -/
theorem calculate_metrics_partial_contract_witness :
    noRentProperty.price = some 300000 ∧ (0:ℚ) < 300000 ∧
    truthyQ noRentProperty.monthly_rent = false ∧
    truthyQ noRentProperty.annual_rent = false ∧
    calculate_mortgage_payment (300000 - 300000 * (1/5))
      ((none : Option ℚ).getD DEFAULT_MORTGAGE_INTEREST_RATE) 30 =
      some examplePartialPayment ∧
    calculate_metrics noRentProperty (1/5) none 30 =
      some (.partialResult (300000 * (1/5)) (300000 - 300000 * (1/5))
        examplePartialPayment) := by
  have hpay : calculate_mortgage_payment (300000 - 300000 * (1/5))
      ((none : Option ℚ).getD DEFAULT_MORTGAGE_INTEREST_RATE) 30 =
      some examplePartialPayment := by with_unfolding_all rfl
  refine ⟨by with_unfolding_all rfl, by norm_num, by with_unfolding_all rfl,
    by with_unfolding_all rfl, hpay, ?_⟩
  exact calculate_metrics_partial_contract noRentProperty 300000 (1/5) none 30
    examplePartialPayment (by with_unfolding_all rfl) (by norm_num)
    (by with_unfolding_all rfl) (by with_unfolding_all rfl) hpay

/-- C5.  In both tiers: after `set(k, v, ttl)` at time `t0`, a `get(k)` at any
instant before the expiry instant `t0 + ttl` returns `v`; a `get(k)` once the
TTL has elapsed returns `None` and deletes the entry from the backing store
(the in-memory map slot, resp. the cache file at the key's path). -/
theorem cache_set_get_ttl {α : Type} (s : CacheStore α) (k : String) (v : α)
    (ttl t0 t1 t2 : ℚ) (h1 : t1 < t0 + ttl) (h2 : t0 + ttl ≤ t2) :
    (memoryCacheGet (memoryCacheSet s k v ttl t0) k t1).1 = some v ∧
    (memoryCacheGet (memoryCacheSet s k v ttl t0) k t2).1 = none ∧
    (memoryCacheGet (memoryCacheSet s k v ttl t0) k t2).2 k = none ∧
    (diskCacheGet (diskCacheSet s k v ttl t0) k t1).1 = some v ∧
    (diskCacheGet (diskCacheSet s k v ttl t0) k t2).1 = none ∧
    (diskCacheGet (diskCacheSet s k v ttl t0) k t2).2 (diskCachePath k) = none := by
  have h2' : ¬ t2 < t0 + ttl := not_lt.mpr h2
  refine ⟨?_, ?_, ?_, ?_, ?_, ?_⟩ <;>
    simp [memoryCacheGet, memoryCacheSet, diskCacheGet, diskCacheSet,
      CacheStore.removeKey, h1, h2']

/-- Witness for C5: `set` at time 0 with TTL 1; read at 1/2 hits, read at 1
misses and deletes, in both tiers. -/
theorem cache_set_get_ttl_witness :
    ((1:ℚ)/2 < 0 + 1 ∧ (0:ℚ) + 1 ≤ 1) ∧
    ((memoryCacheGet (memoryCacheSet (fun _ => none : CacheStore ℕ) "k" 42 1 0)
        "k" (1/2)).1 = some 42 ∧
     (memoryCacheGet (memoryCacheSet (fun _ => none : CacheStore ℕ) "k" 42 1 0)
        "k" 1).1 = none ∧
     (memoryCacheGet (memoryCacheSet (fun _ => none : CacheStore ℕ) "k" 42 1 0)
        "k" 1).2 "k" = none ∧
     (diskCacheGet (diskCacheSet (fun _ => none : CacheStore ℕ) "k" 42 1 0)
        "k" (1/2)).1 = some 42 ∧
     (diskCacheGet (diskCacheSet (fun _ => none : CacheStore ℕ) "k" 42 1 0)
        "k" 1).1 = none ∧
     (diskCacheGet (diskCacheSet (fun _ => none : CacheStore ℕ) "k" 42 1 0)
        "k" 1).2 (diskCachePath "k") = none) :=
  ⟨⟨by norm_num, by norm_num⟩,
   cache_set_get_ttl (fun _ => none) "k" 42 1 0 (1/2) 1 (by norm_num) (by norm_num)⟩

/-- C6 counterexample: the key joins argument renderings with `":"`, which can
itself occur inside an argument's string form, so two calls with different
argument values produce the same key: `f("a:b")` and `f("a", "b")` both map to
`"f:a:b"`. -/
theorem cacheKey_collision :
    cacheKey "f" ["a:b"] [] = cacheKey "f" ["a", "b"] [] ∧
    (["a:b"] : List String) ≠ ["a", "b"] := by
  constructor
  · with_unfolding_all rfl
  · decide

/-- C6 (amended).  The cache key is a deterministic function of the wrapped
operation's name and its argument renderings — in particular independent of
the kwargs dict's iteration order — but it is not collision-resistant (see the
counterexample). -/
theorem cacheKey_deterministic (fn : String) (args : List String)
    (kw1 kw2 : List (String × String)) (h : kw1.Perm kw2) :
    cacheKey fn args kw1 = cacheKey fn args kw2 := by
  unfold cacheKey
  rw [List.eq_of_perm_of_sorted
    ((List.perm_insertionSort kwLE kw1).trans
      (h.trans (List.perm_insertionSort kwLE kw2).symm))
    (List.sorted_insertionSort kwLE kw1)
    (List.sorted_insertionSort kwLE kw2)]

/-- Witness for C6 (amended): kwargs supplied in two different orders. -/
theorem cacheKey_deterministic_witness :
    List.Perm [("b", "2"), ("a", "3")] [("a", "3"), ("b", "2")] ∧
    cacheKey "f" ["1"] [("b", "2"), ("a", "3")] =
      cacheKey "f" ["1"] [("a", "3"), ("b", "2")] :=
  ⟨List.Perm.swap _ _ _,
   cacheKey_deterministic "f" ["1"] _ _ (List.Perm.swap _ _ _)⟩

/-- C8 counterexample: a constructible listing with inconsistent rent fields
(monthly 3000, annual 12000) yields `cap_rate > rental_yield` even though its
total monthly expenses are positive. -/
theorem cap_rate_exceeds_yield_counterexample :
    ltOpt ((fullOf (calculate_metrics inconsistentRentProperty)).map
        (·.rental_yield))
      ((fullOf (calculate_metrics inconsistentRentProperty)).map
        (·.cap_rate)) = true ∧
    ltOpt (some 0) ((fullOf (calculate_metrics inconsistentRentProperty)).map
        (·.total_monthly_expenses)) = true := by
  constructor <;> with_unfolding_all rfl

/-- C8 (amended).  For every full metrics result: `cap_rate = rental_yield`
iff `annual_noi = annual_rent`; and whenever the resolved rents are consistent
(`annual_rent = 12 * monthly_rent` — in particular whenever only one rent
field was supplied), positive total monthly expenses force
`cap_rate < rental_yield`. -/
theorem cap_rate_vs_rental_yield (p : Property) (dp : ℚ) (ir : Option ℚ)
    (y : ℕ) (m : FullMetrics)
    (h : calculate_metrics p dp ir y = some (.full m)) :
    (m.cap_rate = m.rental_yield ↔ m.annual_noi = m.annual_rent) ∧
    (m.annual_rent = 12 * m.monthly_rent → 0 < m.total_monthly_expenses →
      m.cap_rate < m.rental_yield) := by
  obtain ⟨price, mr, ar, pay, -, hpos, rfl⟩ := calc_full_inv h
  constructor
  · simp only [mkFullMetrics]
    exact div_mul_hundred_inj hpos
  · simp only [mkFullMetrics]
    intro har hexp
    exact div_mul_hundred_lt hpos (by rw [har]; linarith)

/-- Witness for C8 (amended) at the inconsistent-rent listing (1-year term
keeps the closed evaluation small). -/
theorem cap_rate_vs_rental_yield_witness :
    calculate_metrics inconsistentRentProperty (1/5) none 1 =
      some (.full inconsistentRentMetrics) ∧
    ((inconsistentRentMetrics.cap_rate = inconsistentRentMetrics.rental_yield ↔
      inconsistentRentMetrics.annual_noi = inconsistentRentMetrics.annual_rent) ∧
     (inconsistentRentMetrics.annual_rent =
        12 * inconsistentRentMetrics.monthly_rent →
      0 < inconsistentRentMetrics.total_monthly_expenses →
      inconsistentRentMetrics.cap_rate < inconsistentRentMetrics.rental_yield)) := by
  have h : calculate_metrics inconsistentRentProperty (1/5) none 1 =
      some (.full inconsistentRentMetrics) := by with_unfolding_all rfl
  exact ⟨h, cap_rate_vs_rental_yield _ _ _ _ _ h⟩

/-- C9.  A stored `None` is indistinguishable from a miss in both tiers: if
the backing store holds `None` under the call's key, the wrapper re-invokes
the wrapped operation and returns its fresh result — a stored `None` is never
served from the cache. -/
theorem cached_none_reinvoked {α : Type} (s : CacheStore (Option α))
    (fn : String) (args : List String) (kwargs : List (String × String))
    (ttl now expiry : ℚ) (fr : Option α) :
    (s (cacheKey fn args kwargs) = some (none, expiry) →
      (cachedCallMemory s now fn args kwargs ttl fr).2.2 = true ∧
      (cachedCallMemory s now fn args kwargs ttl fr).1 = fr) ∧
    (s (diskCachePath (cacheKey fn args kwargs)) = some (none, expiry) →
      (cachedCallDisk s now fn args kwargs ttl fr).2.2 = true ∧
      (cachedCallDisk s now fn args kwargs ttl fr).1 = fr) := by
  constructor <;> intro hs <;> by_cases hlt : now < expiry <;>
    simp [cachedCallMemory, cachedCallDisk, memoryCacheGet, diskCacheGet,
      hs, hlt]

/-- Witness for C9: a store whose entry under the call's key is `None`. -/
theorem cached_none_reinvoked_witness :
    (cachedCallMemory noneStore 5 "f" ["1"] [] 60 (some 7)).2.2 = true ∧
    (cachedCallMemory noneStore 5 "f" ["1"] [] 60 (some 7)).1 = some 7 ∧
    (cachedCallDisk noneStore 5 "f" ["1"] [] 60 (some 7)).2.2 = true ∧
    (cachedCallDisk noneStore 5 "f" ["1"] [] 60 (some 7)).1 = some 7 := by
  obtain ⟨hm1, hm2⟩ :=
    (cached_none_reinvoked noneStore "f" ["1"] [] 60 5 10 (some 7)).1 rfl
  obtain ⟨hd1, hd2⟩ :=
    (cached_none_reinvoked noneStore "f" ["1"] [] 60 5 10 (some 7)).2 rfl
  exact ⟨hm1, hm2, hd1, hd2⟩

/-- C10.  A rent of exactly 0 is treated as absent: with both rent fields
absent-or-zero, `__post_init__` derives nothing at all (the record is
unchanged — no rent, yield or price-to-rent derivation), and
`calculate_metrics` on a positive price returns the partial missing-rent
payload rather than full metrics. -/
theorem zero_rent_treated_as_absent (p : Property) (price : ℚ)
    (hmr : truthyQ p.monthly_rent = false) (har : truthyQ p.annual_rent = false) :
    postInit p = p ∧
    (p.price = some price → 0 < price →
      ∃ pay, calculate_metrics p = some (.partialResult (price * (1/5))
        (price - price * (1/5)) pay)) := by
  constructor
  · simp [postInit, hmr, har]
  · intro hp hpos
    obtain ⟨pay, hpay⟩ := mortgage_payment_defined (price - price * (1/5))
      DEFAULT_MORTGAGE_INTEREST_RATE 30
      (by norm_num [DEFAULT_MORTGAGE_INTEREST_RATE]) (by norm_num)
    exact ⟨pay, calculate_metrics_partial_contract p price (1/5) none 30 pay
      hp hpos hmr har hpay⟩

/-- Witness for C10 at a listing whose rent fields are both exactly 0. -/
theorem zero_rent_treated_as_absent_witness :
    truthyQ zeroRentProperty.monthly_rent = false ∧
    truthyQ zeroRentProperty.annual_rent = false ∧
    (postInit zeroRentProperty = zeroRentProperty ∧
     (zeroRentProperty.price = some 100000 → 0 < (100000:ℚ) →
      ∃ pay, calculate_metrics zeroRentProperty =
        some (.partialResult (100000 * (1/5)) (100000 - 100000 * (1/5)) pay))) := by
  refine ⟨by with_unfolding_all rfl, by with_unfolding_all rfl, ?_⟩
  exact zero_rent_treated_as_absent zeroRentProperty 100000
    (by with_unfolding_all rfl) (by with_unfolding_all rfl)

end RwaDealTracker
